import Mathlib

/-!
Verification of the file-reference (origin / location / refresh) subsystem of
this repository.  The data model below is translated from
`src/Telegram/SourceFiles/data/data_file_origin.h`; parts of the subsystem
whose implementation is not in the available sources (the refresh coordinator,
the reference store and the extractor bodies) are modelled from the
specification and marked as such in their doc comments.

C++ `uint64` ids are modelled as `Nat`: the code performs no arithmetic on
them, only comparisons, so no wrap-around is involved.
-/

namespace Data

/-- `FullMsgId` (from `data_types.h`, not among the available sources).
Modelled from the spec: the `Message` origin carries a conversation id and a
message id, ordered lexicographically (discriminant first, then fields). -/
structure FullMsgId where
  channel : Nat
  msg : Nat
deriving DecidableEq, Repr

/-- `FullMsgId::operator<`: lexicographic on (channel, msg). -/
def FullMsgId.lt (a b : FullMsgId) : Bool :=
  a.channel < b.channel || (a.channel == b.channel && a.msg < b.msg)

/-- `struct FileOriginUserPhoto` from `data_file_origin.h`. -/
structure FileOriginUserPhoto where
  userId : Nat
  photoId : Nat
deriving DecidableEq, Repr

/-- `FileOriginUserPhoto::operator<`:
`std::tie(userId, photoId) < std::tie(other.userId, other.photoId)`. -/
def FileOriginUserPhoto.lt (a b : FileOriginUserPhoto) : Bool :=
  a.userId < b.userId || (a.userId == b.userId && a.photoId < b.photoId)

/-- `struct FileOriginPeerPhoto` from `data_file_origin.h`. -/
structure FileOriginPeerPhoto where
  peerId : Nat
deriving DecidableEq, Repr

/-- `FileOriginPeerPhoto::operator<`: `peerId < other.peerId`. -/
def FileOriginPeerPhoto.lt (a b : FileOriginPeerPhoto) : Bool :=
  a.peerId < b.peerId

/-- `struct FileOriginStickerSet` from `data_file_origin.h`. -/
structure FileOriginStickerSet where
  setId : Nat
  accessHash : Nat
deriving DecidableEq, Repr

/-- `FileOriginStickerSet::operator<`: `setId < other.setId`.
Note: the source compares only `setId`; `accessHash` is not consulted. -/
def FileOriginStickerSet.lt (a b : FileOriginStickerSet) : Bool :=
  a.setId < b.setId

/-- `struct FileOriginSavedGifs` from `data_file_origin.h`: no fields. -/
structure FileOriginSavedGifs where
deriving DecidableEq, Repr

/-- `FileOriginSavedGifs::operator<`: always `false`. -/
def FileOriginSavedGifs.lt (_ _ : FileOriginSavedGifs) : Bool :=
  false

/-- `struct FileOriginWallpaper` from `data_file_origin.h`. -/
structure FileOriginWallpaper where
  paperId : Nat
  accessHash : Nat
deriving DecidableEq, Repr

/-- `FileOriginWallpaper::operator<`: `paperId < other.paperId`.
Note: the source compares only `paperId`; `accessHash` is not consulted. -/
def FileOriginWallpaper.lt (a b : FileOriginWallpaper) : Bool :=
  a.paperId < b.paperId

/-- `struct FileOrigin`: a `base::optional_variant` over the six origin
kinds.  The empty (valueless) state is the variant's first alternative, so it
is modelled as the constructor `empty` at discriminant index 0. -/
inductive FileOrigin where
  | empty
  | message (data : FullMsgId)
  | userPhoto (data : FileOriginUserPhoto)
  | peerPhoto (data : FileOriginPeerPhoto)
  | stickerSet (data : FileOriginStickerSet)
  | savedGifs (data : FileOriginSavedGifs)
  | wallpaper (data : FileOriginWallpaper)
deriving DecidableEq, Repr

/-- The variant discriminant (alternative index) of a `FileOrigin`. -/
def FileOrigin.index : FileOrigin → Nat
  | .empty => 0
  | .message _ => 1
  | .userPhoto _ => 2
  | .peerPhoto _ => 3
  | .stickerSet _ => 4
  | .savedGifs _ => 5
  | .wallpaper _ => 6

/-- `FileOrigin::operator bool`: `data.has_value()`. -/
def FileOrigin.hasValue : FileOrigin → Bool
  | .empty => false
  | _ => true

/-- `FileOrigin::operator<`: `data < other.data`.
Modelled from the spec for the variant layer (the variant type lives in
`base/variant.h`, not among the available sources): ordering compares the
discriminant first, then the fields via the per-kind `operator<` above. -/
def FileOrigin.lt (a b : FileOrigin) : Bool :=
  if a.index < b.index then true
  else if b.index < a.index then false
  else match a, b with
    | .empty, .empty => false
    | .message x, .message y => x.lt y
    | .userPhoto x, .userPhoto y => x.lt y
    | .peerPhoto x, .peerPhoto y => x.lt y
    | .stickerSet x, .stickerSet y => x.lt y
    | .savedGifs x, .savedGifs y => x.lt y
    | .wallpaper x, .wallpaper y => x.lt y
    | _, _ => false

/-- Equivalence of origins as map keys: neither strictly below the other.
This is how an ordered C++ `std::map` keyed by `FileOrigin` identifies keys. -/
def originEqv (a b : FileOrigin) : Bool :=
  !FileOrigin.lt a b && !FileOrigin.lt b a

/-- `struct DocumentFileLocationId` from `data_file_origin.h`. -/
structure DocumentFileLocationId where
  id : Nat
deriving DecidableEq, Repr

/-- `operator<(DocumentFileLocationId, DocumentFileLocationId)`. -/
def DocumentFileLocationId.lt (a b : DocumentFileLocationId) : Bool :=
  a.id < b.id

/-- `struct PhotoFileLocationId` from `data_file_origin.h`. -/
structure PhotoFileLocationId where
  id : Nat
deriving DecidableEq, Repr

/-- `operator<(PhotoFileLocationId, PhotoFileLocationId)`. -/
def PhotoFileLocationId.lt (a b : PhotoFileLocationId) : Bool :=
  a.id < b.id

/-- `FileLocationId = base::variant<DocumentFileLocationId,
PhotoFileLocationId>` from `data_file_origin.h`. -/
inductive FileLocationId where
  | document (v : DocumentFileLocationId)
  | photo (v : PhotoFileLocationId)
deriving DecidableEq, Repr

/-- The variant discriminant of a `FileLocationId`. -/
def FileLocationId.index : FileLocationId → Nat
  | .document _ => 0
  | .photo _ => 1

/-- Ordering of `FileLocationId`: discriminant first, then the per-kind
`operator<` (variant ordering, modelled from the spec for the variant layer). -/
def FileLocationId.lt (a b : FileLocationId) : Bool :=
  if a.index < b.index then true
  else if b.index < a.index then false
  else match a, b with
    | .document x, .document y => x.lt y
    | .photo x, .photo y => x.lt y
    | _, _ => false

/-- Equivalence of locations as map keys: neither strictly below the other. -/
def locEqv (a b : FileLocationId) : Bool :=
  !FileLocationId.lt a b && !FileLocationId.lt b a

/-- `QByteArray` reference bytes: an opaque byte sequence. -/
abbrev ReferenceBytes := List Nat

/-- `struct UpdatedFileReferences`: a finite mapping
`FileLocationId -> ReferenceBytes` (a `std::map` in the source), modelled as
an association list with unique keys up to `locEqv`. -/
structure UpdatedFileReferences where
  data : List (FileLocationId × ReferenceBytes)
deriving DecidableEq, Repr

/-- Lookup in an `UpdatedFileReferences` mapping (first matching key, as in a
unique-key `std::map`). -/
def UpdatedFileReferences.lookup (m : UpdatedFileReferences)
    (k : FileLocationId) : Option ReferenceBytes :=
  (m.data.find? (fun p => locEqv p.1 k)).map Prod.snd

/-- Modelled from the spec: the `ReferenceStore` component ("authoritative
cache of last-known-good reference bytes per LocationId") — its
implementation is not among the available sources.  A key-value map keyed by
`FileLocationId`, modelled as an association list with unique keys up to
`locEqv`. -/
structure ReferenceStore where
  data : List (FileLocationId × ReferenceBytes)
deriving DecidableEq, Repr

/-- Modelled from the spec: `lookup(LocationId) -> ReferenceBytes | absent`,
read-only. -/
def ReferenceStore.lookup (s : ReferenceStore) (k : FileLocationId) :
    Option ReferenceBytes :=
  (s.data.find? (fun p => locEqv p.1 k)).map Prod.snd

/-- Set one key to one value, overwriting any existing bytes for that key
(`std::map` insert-or-assign semantics). -/
def ReferenceStore.set (s : ReferenceStore) (k : FileLocationId)
    (v : ReferenceBytes) : ReferenceStore :=
  ⟨(k, v) :: s.data.filter (fun p => !locEqv p.1 k)⟩

/-- Modelled from the spec: `apply(mapping)` "merges mapping into the store,
overwriting any existing bytes for each key", entry by entry. -/
def ReferenceStore.apply (s : ReferenceStore) :
    List (FileLocationId × ReferenceBytes) → ReferenceStore
  | [] => s
  | p :: rest => (s.set p.1 p.2).apply rest

/-- The last binding for a key in a list of entries applied in order (the
binding that survives repeated overwriting).  Used to state what
`ReferenceStore.apply` leaves in the store. -/
def lastB : List (FileLocationId × ReferenceBytes) → FileLocationId →
    Option ReferenceBytes
  | [], _ => none
  | p :: rest, k =>
    match lastB rest k with
    | some v => some v
    | none => if locEqv p.1 k then some p.2 else none

/-- Modelled from the spec: `RefreshOutcome` is one of
`Refreshed(ReferenceBytes)`, `NotFound`, `OriginInvalid`, `RequestFailed`. -/
inductive RefreshOutcome where
  | refreshed (bytes : ReferenceBytes)
  | notFound
  | originInvalid
  | requestFailed
deriving DecidableEq, Repr

/-- Modelled from the spec: the descriptor of an origin-specific replay
request handed to the injected request-sending collaborator (one constructor
per row of the replay dispatch table in spec §4.3). -/
inductive RequestDescriptor where
  | getMessages (channel : Nat) (msg : Nat)
  | getUserPhotos (userId : Nat)
  | getPeerFull (peerId : Nat)
  | getStickerSet (setId : Nat) (accessHash : Nat)
  | getSavedGifs
  | getWallpaper (paperId : Nat) (accessHash : Nat)
deriving DecidableEq, Repr

/-- Modelled from the spec: the replay-request dispatch table — the
coordinator "selects the replay request by switching on the Origin kind";
`Empty` has no well-defined replay, yielding `none`. -/
def replayRequest : FileOrigin → Option RequestDescriptor
  | .empty => none
  | .message m => some (.getMessages m.channel m.msg)
  | .userPhoto u => some (.getUserPhotos u.userId)
  | .peerPhoto p => some (.getPeerFull p.peerId)
  | .stickerSet s => some (.getStickerSet s.setId s.accessHash)
  | .savedGifs _ => some .getSavedGifs
  | .wallpaper w => some (.getWallpaper w.paperId w.accessHash)

/-- A waiter (continuation slot) is identified by a number. -/
abbrev WaiterId := Nat

/-- The `(LocationId, Origin)` key of an in-flight refresh record. -/
structure RefreshKey where
  location : FileLocationId
  origin : FileOrigin
deriving DecidableEq, Repr

/-- Key equivalence for the in-flight map (ordered-map key identity on the
pair, componentwise). -/
def RefreshKey.eqv (a b : RefreshKey) : Bool :=
  locEqv a.location b.location && originEqv a.origin b.origin

/-- Modelled from the spec: an in-flight refresh record — its key plus the
ordered collection of waiting continuations. -/
structure InflightRecord where
  key : RefreshKey
  waiters : List WaiterId
deriving DecidableEq, Repr

/-- Modelled from the spec: the `RefreshCoordinator` state — the in-flight
map, the `ReferenceStore` it owns, and (for observability of the injected
request-sending collaborator) the ordered log of replay requests it has
issued. -/
structure Coordinator where
  inflight : List InflightRecord
  store : ReferenceStore
  sent : List RequestDescriptor
deriving DecidableEq, Repr

/-- Find the in-flight record for a key, if any. -/
def Coordinator.findRecord (c : Coordinator) (k : RefreshKey) :
    Option InflightRecord :=
  c.inflight.find? (fun r => r.key.eqv k)

/-- The result of one `request()` call: the updated coordinator state, plus
`some outcome` when the returned future resolved synchronously. -/
structure RequestResult where
  state : Coordinator
  immediate : Option RefreshOutcome
deriving DecidableEq, Repr

/-- Modelled from the spec:
`request(LocationId, Origin) -> Future<RefreshOutcome>`, the sole entry
point.  With `Origin::Empty` (no well-defined replay) the future resolves
immediately with `OriginInvalid` and nothing is sent.  If a record exists for
the key, the caller joins its waiter list and no new network action occurs.
Otherwise a record with this single waiter is created and the origin-specific
replay is sent through the collaborator. -/
def Coordinator.request (c : Coordinator) (k : RefreshKey) (w : WaiterId) :
    RequestResult :=
  match replayRequest k.origin with
  | none => ⟨c, some .originInvalid⟩
  | some req =>
    match c.findRecord k with
    | some _ =>
      ⟨⟨c.inflight.map (fun r =>
          if r.key.eqv k then ⟨r.key, r.waiters ++ [w]⟩ else r),
        c.store, c.sent⟩, none⟩
    | none =>
      ⟨⟨c.inflight ++ [⟨k, [w]⟩], c.store, c.sent ++ [req]⟩, none⟩

/-- Modelled from the spec: the outcome of the replay itself — either a
successfully decoded response, already extracted to a
`LocationId -> ReferenceBytes` mapping, or a transport/request failure. -/
inductive ReplayResult where
  | ok (m : List (FileLocationId × ReferenceBytes))
  | error
deriving DecidableEq, Repr

/-- Modelled from the spec: handling the replay's completion for a key.  The
record is removed from the in-flight map first; on success the extracted
mapping is applied to the store and every waiter resolves `Refreshed(bytes)`
when its location appears in the mapping, `NotFound` otherwise; on failure
every waiter resolves `RequestFailed`.  Returns the new state and the list of
waiter resolutions, in waiter order. -/
def Coordinator.respond (c : Coordinator) (k : RefreshKey)
    (res : ReplayResult) : Coordinator × List (WaiterId × RefreshOutcome) :=
  match c.findRecord k with
  | none => (c, [])
  | some r =>
    let inflight := c.inflight.filter (fun q => !q.key.eqv k)
    match res with
    | .error =>
      (⟨inflight, c.store, c.sent⟩,
        r.waiters.map (fun w => (w, .requestFailed)))
    | .ok m =>
      let outcome := match (UpdatedFileReferences.mk m).lookup k.location with
        | some bytes => RefreshOutcome.refreshed bytes
        | none => RefreshOutcome.notFound
      (⟨inflight, c.store.apply m, c.sent⟩,
        r.waiters.map (fun w => (w, outcome)))

/-- `request()` repeated for a list of concurrent callers of the same key
(the coordinator serializes them under one exclusion domain). -/
def Coordinator.requestAll (c : Coordinator) (k : RefreshKey) :
    List WaiterId → Coordinator
  | [] => c
  | w :: ws => ((c.request k w).state).requestAll k ws

/-- Modelled from the spec: an entity embedded in a decoded API response — a
document or photo optionally carrying a reference field, or an
unknown/malformed entity. -/
inductive ApiEntity where
  | document (id : Nat) (reference : Option ReferenceBytes)
  | photo (id : Nat) (reference : Option ReferenceBytes)
  | unknown
deriving DecidableEq, Repr

/-- Modelled from the spec: extraction of one embedded entity — a document
or photo carrying a reference field contributes one binding; anything else
(unknown, malformed, or missing its reference field) is skipped. -/
def extractEntity : ApiEntity → Option (FileLocationId × ReferenceBytes)
  | .document i (some ref) => some (.document ⟨i⟩, ref)
  | .photo i (some ref) => some (.photo ⟨i⟩, ref)
  | _ => none

/-- Modelled from the spec: the `GetFileReferences` extractor bodies (their
implementations are not among the available sources; only declarations are).
A pure total function from the entities embedded in a decoded response to a
`LocationId -> ReferenceBytes` mapping, skipping non-matching entities. -/
def GetFileReferences (entities : List ApiEntity) : UpdatedFileReferences :=
  ⟨entities.filterMap extractEntity⟩

/-- A concrete empty store, used for concrete evaluations. -/
def exStore : ReferenceStore := ⟨[]⟩

/-- A concrete idle coordinator (no in-flight records, nothing sent). -/
def exCoord : Coordinator := ⟨[], exStore, []⟩

/-- A concrete refresh key: document location 7 discovered through sticker
set 9 with access hash 1. -/
def exKey : RefreshKey := ⟨.document ⟨7⟩, .stickerSet ⟨9, 1⟩⟩

/-- A concrete coordinator holding one in-flight record for `exKey` with a
single waiter. -/
def exCoord1 : Coordinator := ⟨[⟨exKey, [0]⟩], exStore, []⟩

/-- A concrete successful replay result covering document location 7. -/
def exRes : ReplayResult := .ok [(.document ⟨7⟩, [1, 2])]

/-! Helper lemmas about list search, shared by several developments below. -/

theorem find?_filter_not_self {α : Type} (l : List α) (p : α → Bool) :
    (l.filter (fun a => !p a)).find? p = none := by
  induction l with
  | nil => rfl
  | cons x xs ih =>
    cases hx : p x <;> simp [List.filter_cons, List.find?_cons, hx, ih]

theorem find?_filter_of_excl {α : Type} (l : List α) (p q : α → Bool)
    (h : ∀ a, q a = true → p a = false) :
    (l.filter (fun a => !p a)).find? q = l.find? q := by
  induction l with
  | nil => rfl
  | cons x xs ih =>
    cases hq : q x
    · cases hp : p x <;>
        simp [List.filter_cons, List.find?_cons, hp, hq, ih]
    · have hp := h x hq
      simp [List.filter_cons, List.find?_cons, hp, hq]

theorem find?_append_of_none {α : Type} (l₁ l₂ : List α) (p : α → Bool)
    (h : l₁.find? p = none) : (l₁ ++ l₂).find? p = l₂.find? p := by
  induction l₁ with
  | nil => rfl
  | cons x xs ih =>
    cases hx : p x
    · simp only [List.find?_cons, hx] at h
      simp [List.find?_cons, hx, ih h]
    · simp [List.find?_cons, hx] at h

theorem find?_map_of_pres {α : Type} (l : List α) (f : α → α) (p : α → Bool)
    (h : ∀ a, p (f a) = p a) :
    (l.map f).find? p = (l.find? p).map f := by
  induction l with
  | nil => rfl
  | cons x xs ih =>
    cases hx : p x <;> simp [List.find?_cons, h, hx, ih]

/-! Irreflexivity of the orderings, and key-equivalence facts. -/

theorem locationLt_irrefl (a : FileLocationId) :
    FileLocationId.lt a a = false := by
  cases a <;>
    simp [FileLocationId.lt, FileLocationId.index,
      DocumentFileLocationId.lt, PhotoFileLocationId.lt]

theorem originLt_irrefl (a : FileOrigin) :
    FileOrigin.lt a a = false := by
  cases a <;>
    simp [FileOrigin.lt, FileOrigin.index, FullMsgId.lt,
      FileOriginUserPhoto.lt, FileOriginPeerPhoto.lt,
      FileOriginStickerSet.lt, FileOriginSavedGifs.lt,
      FileOriginWallpaper.lt]

theorem locEqv_refl (a : FileLocationId) : locEqv a a = true := by
  simp [locEqv, locationLt_irrefl]

theorem originEqv_refl (a : FileOrigin) : originEqv a a = true := by
  simp [originEqv, originLt_irrefl]

theorem RefreshKey.eqv_refl (k : RefreshKey) : k.eqv k = true := by
  simp [RefreshKey.eqv, locEqv_refl, originEqv_refl]

theorem locEqv_iff_eq (a b : FileLocationId) : locEqv a b = true ↔ a = b := by
  rcases a with ⟨⟨x⟩⟩ | ⟨⟨x⟩⟩ <;> rcases b with ⟨⟨y⟩⟩ | ⟨⟨y⟩⟩ <;>
    simp [locEqv, FileLocationId.lt, FileLocationId.index,
      DocumentFileLocationId.lt, PhotoFileLocationId.lt] <;>
    omega

/-! Lemmas about the reference store. -/

theorem ReferenceStore.lookup_set (s : ReferenceStore) (k : FileLocationId)
    (v : ReferenceBytes) (q : FileLocationId) :
    (s.set k v).lookup q =
      if locEqv k q then some v else s.lookup q := by
  cases h : locEqv k q
  · have hne : k ≠ q := fun e => by
      rw [e, locEqv_refl] at h
      simp at h
    have hx : ∀ p : FileLocationId × ReferenceBytes,
        locEqv p.1 q = true → locEqv p.1 k = false := by
      intro p hp
      cases hk : locEqv p.1 k
      · rfl
      · rw [locEqv_iff_eq] at hp hk
        exact absurd (hk ▸ hp) hne
    simp [ReferenceStore.set, ReferenceStore.lookup, List.find?_cons, h,
      find?_filter_of_excl s.data _ _ hx]
  · simp [ReferenceStore.set, ReferenceStore.lookup, List.find?_cons, h]

theorem ReferenceStore.lookup_apply (m : List (FileLocationId × ReferenceBytes)) :
    ∀ (s : ReferenceStore) (k : FileLocationId),
    (s.apply m).lookup k =
      match lastB m k with
      | some v => some v
      | none => s.lookup k := by
  induction m with
  | nil => intro s k; simp [ReferenceStore.apply, lastB]
  | cons p rest ih =>
    intro s k
    show ((s.set p.1 p.2).apply rest).lookup k = _
    rw [ih]
    cases hr : lastB rest k
    · simp only [lastB, hr]
      rw [ReferenceStore.lookup_set]
      cases h : locEqv p.1 k <;> simp [h]
    · simp [lastB, hr]

/-! Lemmas about the refresh coordinator. -/

theorem Coordinator.request_join (c : Coordinator) (k : RefreshKey)
    (w : WaiterId) (req : RequestDescriptor) (r : InflightRecord)
    (hreq : replayRequest k.origin = some req)
    (h : c.findRecord k = some r) :
    (c.request k w).state =
      ⟨c.inflight.map (fun q =>
        if q.key.eqv k then ⟨q.key, q.waiters ++ [w]⟩ else q),
       c.store, c.sent⟩ ∧
    (c.request k w).state.findRecord k = some ⟨r.key, r.waiters ++ [w]⟩ := by
  have hstate : (c.request k w).state =
      ⟨c.inflight.map (fun q =>
        if q.key.eqv k then ⟨q.key, q.waiters ++ [w]⟩ else q),
       c.store, c.sent⟩ := by
    simp [Coordinator.request, hreq, h]
  refine ⟨hstate, ?_⟩
  rw [hstate]
  show List.find? _ (c.inflight.map _) = _
  rw [find?_map_of_pres]
  · have h' : List.find? (fun r => r.key.eqv k) c.inflight = some r := h
    rw [h']
    have hk : r.key.eqv k = true := by
      have hp := List.find?_some h'
      simpa using hp
    simp [hk]
  · intro a
    cases ha : a.key.eqv k <;> simp [ha]

theorem Coordinator.requestAll_join (k : RefreshKey) (req : RequestDescriptor)
    (hreq : replayRequest k.origin = some req) :
    ∀ (ws : List WaiterId) (c : Coordinator) (r : InflightRecord),
    c.findRecord k = some r →
    (c.requestAll k ws).findRecord k = some ⟨r.key, r.waiters ++ ws⟩ ∧
    (c.requestAll k ws).sent = c.sent ∧
    (c.requestAll k ws).store = c.store := by
  intro ws
  induction ws with
  | nil =>
    intro c r h
    simpa [Coordinator.requestAll] using h
  | cons w ws ih =>
    intro c r h
    obtain ⟨hstate, hfind⟩ := Coordinator.request_join c k w req r hreq h
    obtain ⟨h1, h2, h3⟩ :=
      ih (c.request k w).state ⟨r.key, r.waiters ++ [w]⟩ hfind
    have hre : c.requestAll k (w :: ws) =
        (c.request k w).state.requestAll k ws := rfl
    rw [hre, h1, h2, h3, hstate]
    exact ⟨by simp, rfl, rfl⟩

/-! The claims. -/

/-- C1: if N callers invoke `request` for the same `(LocationId, Origin)`
key concurrently (serialized under the coordinator's single exclusion
domain) before any response arrives, exactly one origin replay request is
sent through the request-sending collaborator (the sent log grows by exactly
that one replay), all N waiters accumulate on the single in-flight record,
and all N futures resolve once that single replay completes. -/
theorem refresh_request_dedup (c : Coordinator) (k : RefreshKey)
    (req : RequestDescriptor) (w : WaiterId) (ws : List WaiterId)
    (res : ReplayResult)
    (hreq : replayRequest k.origin = some req)
    (hnone : c.findRecord k = none) :
    (c.requestAll k (w :: ws)).sent = c.sent ++ [req] ∧
    (c.requestAll k (w :: ws)).findRecord k = some ⟨k, w :: ws⟩ ∧
    ((c.requestAll k (w :: ws)).respond k res).2.map Prod.fst = w :: ws := by
  have hre : c.requestAll k (w :: ws) =
      (c.request k w).state.requestAll k ws := rfl
  have hstate1 : (c.request k w).state =
      ⟨c.inflight ++ [⟨k, [w]⟩], c.store, c.sent ++ [req]⟩ := by
    simp [Coordinator.request, hreq, hnone]
  have hfind1 : (c.request k w).state.findRecord k = some ⟨k, [w]⟩ := by
    rw [hstate1]
    show List.find? _ (c.inflight ++ [⟨k, [w]⟩]) = _
    rw [find?_append_of_none _ _ _ hnone]
    simp [List.find?_cons, RefreshKey.eqv_refl]
  obtain ⟨h1, h2, h3⟩ :=
    Coordinator.requestAll_join k req hreq ws (c.request k w).state
      ⟨k, [w]⟩ hfind1
  have hfr : (c.requestAll k (w :: ws)).findRecord k =
      some ⟨k, w :: ws⟩ := by
    rw [hre, h1]; simp
  refine ⟨?_, hfr, ?_⟩
  · rw [hre, h2, hstate1]
  · cases res <;>
      simp [Coordinator.respond, hfr, List.map_map, Function.comp_def]

/-- C1 witness: three concurrent callers for `exKey` on an idle coordinator
cause exactly one sticker-set replay, and all three resolve on the replay's
completion. -/
theorem refresh_request_dedup_witness :
    (exCoord.requestAll exKey (0 :: [1, 2])).sent =
      exCoord.sent ++ [.getStickerSet 9 1] ∧
    (exCoord.requestAll exKey (0 :: [1, 2])).findRecord exKey =
      some ⟨exKey, 0 :: [1, 2]⟩ ∧
    ((exCoord.requestAll exKey (0 :: [1, 2])).respond exKey exRes).2.map
      Prod.fst = 0 :: [1, 2] :=
  refresh_request_dedup exCoord exKey (.getStickerSet 9 1) 0 [1, 2] exRes
    (by decide) (by decide)

/-- C2: `request` with the `Empty` origin leaves the coordinator state (in
particular the sent log) untouched and resolves immediately with
`OriginInvalid`; the request-sending collaborator is never invoked. -/
theorem request_empty_origin (c : Coordinator) (loc : FileLocationId)
    (w : WaiterId) :
    c.request ⟨loc, .empty⟩ w = ⟨c, some .originInvalid⟩ ∧
    (c.request ⟨loc, .empty⟩ w).state.sent = c.sent :=
  ⟨rfl, rfl⟩

/-- C3 counterexample: two `StickerSet` origins with equal `setId` but
different `accessHash` (and two `Wallpaper` origins with equal `paperId` but
different `accessHash`) are distinct values that are NOT ordered apart: the
source's `operator<` ignores the access hash, so they are order-equivalent. -/
theorem origin_field_order_cex :
    FileOriginStickerSet.lt ⟨1, 2⟩ ⟨1, 3⟩ = false ∧
    FileOriginStickerSet.lt ⟨1, 3⟩ ⟨1, 2⟩ = false ∧
    originEqv (.stickerSet ⟨1, 2⟩) (.stickerSet ⟨1, 3⟩) = true ∧
    FileOrigin.stickerSet ⟨1, 2⟩ ≠ FileOrigin.stickerSet ⟨1, 3⟩ ∧
    FileOriginWallpaper.lt ⟨1, 2⟩ ⟨1, 3⟩ = false ∧
    FileOriginWallpaper.lt ⟨1, 3⟩ ⟨1, 2⟩ = false ∧
    originEqv (.wallpaper ⟨1, 2⟩) (.wallpaper ⟨1, 3⟩) = true ∧
    FileOrigin.wallpaper ⟨1, 2⟩ ≠ FileOrigin.wallpaper ⟨1, 3⟩ := by
  decide

/-- C3 amended: same-kind origins are ordered by their fields, except that
`StickerSet` compares only `setId` and `Wallpaper` compares only `paperId`
(`accessHash` is ignored): two `StickerSet` origins are order-equivalent
precisely when their `setId`s agree, two `Wallpaper` origins precisely when
their `paperId`s agree, while `Message`, `UserPhoto` and `PeerPhoto`
origins are order-equivalent precisely when all their fields agree. -/
theorem origin_same_kind_field_order (s1 s2 : FileOriginStickerSet)
    (w1 w2 : FileOriginWallpaper) (u1 u2 : FileOriginUserPhoto)
    (m1 m2 : FullMsgId) (p1 p2 : FileOriginPeerPhoto) :
    (originEqv (.stickerSet s1) (.stickerSet s2) = true ↔
      s1.setId = s2.setId) ∧
    (originEqv (.wallpaper w1) (.wallpaper w2) = true ↔
      w1.paperId = w2.paperId) ∧
    (originEqv (.userPhoto u1) (.userPhoto u2) = true ↔ u1 = u2) ∧
    (originEqv (.message m1) (.message m2) = true ↔ m1 = m2) ∧
    (originEqv (.peerPhoto p1) (.peerPhoto p2) = true ↔ p1 = p2) := by
  obtain ⟨a, b⟩ := u1
  obtain ⟨a2, b2⟩ := u2
  obtain ⟨e, f⟩ := s1
  obtain ⟨e2, f2⟩ := s2
  obtain ⟨j, l⟩ := w1
  obtain ⟨j2, l2⟩ := w2
  obtain ⟨g, d⟩ := m1
  obtain ⟨g2, d2⟩ := m2
  obtain ⟨t⟩ := p1
  obtain ⟨t2⟩ := p2
  refine ⟨?_, ?_, ?_, ?_, ?_⟩ <;>
    simp [originEqv, FileOrigin.lt, FileOrigin.index,
      FileOriginStickerSet.lt, FileOriginWallpaper.lt,
      FileOriginUserPhoto.lt, FullMsgId.lt, FileOriginPeerPhoto.lt] <;>
    omega

/-- C4: two origins with different discriminants are distinct and never
order-equivalent, whatever their fields: the discriminant dominates the
comparison. -/
theorem origin_kind_dominates (a b : FileOrigin)
    (h : a.index ≠ b.index) :
    originEqv a b = false ∧ a ≠ b := by
  constructor
  · rcases Nat.lt_or_ge a.index b.index with hlt | hge
    · have hab : FileOrigin.lt a b = true := by
        unfold FileOrigin.lt
        rw [if_pos hlt]
      simp [originEqv, hab]
    · have hgt : b.index < a.index :=
        Nat.lt_of_le_of_ne hge (fun e => h e.symm)
      have hba : FileOrigin.lt b a = true := by
        unfold FileOrigin.lt
        rw [if_pos hgt]
      simp [originEqv, hba]
  · intro e
    exact h (by rw [e])

/-- C4 witness: a `StickerSet` and a `Wallpaper` origin with numerically
equal fields are unequal and not order-equivalent. -/
theorem origin_kind_dominates_witness :
    originEqv (.stickerSet ⟨5, 5⟩) (.wallpaper ⟨5, 5⟩) = false ∧
    FileOrigin.stickerSet ⟨5, 5⟩ ≠ FileOrigin.wallpaper ⟨5, 5⟩ :=
  origin_kind_dominates (.stickerSet ⟨5, 5⟩) (.wallpaper ⟨5, 5⟩) (by decide)

/-- C5: for every id `n`, the document location with id `n` and the photo
location with id `n` are distinct, not order-equivalent (so they are
different map keys), and writing reference bytes under one of them leaves
lookups under the other untouched. -/
theorem location_kinds_distinct (n : Nat) (s : ReferenceStore)
    (v : ReferenceBytes) :
    FileLocationId.document ⟨n⟩ ≠ FileLocationId.photo ⟨n⟩ ∧
    locEqv (.document ⟨n⟩) (.photo ⟨n⟩) = false ∧
    (s.set (.document ⟨n⟩) v).lookup (.photo ⟨n⟩) =
      s.lookup (.photo ⟨n⟩) ∧
    (s.set (.photo ⟨n⟩) v).lookup (.document ⟨n⟩) =
      s.lookup (.document ⟨n⟩) := by
  have hdp : locEqv (.document ⟨n⟩) (.photo ⟨n⟩) = false := rfl
  have hpd : locEqv (.photo ⟨n⟩) (.document ⟨n⟩) = false := rfl
  refine ⟨by simp, hdp, ?_, ?_⟩
  · rw [ReferenceStore.lookup_set, hdp]
    simp
  · rw [ReferenceStore.lookup_set, hpd]
    simp

/-- C6: the `Empty` origin compares strictly below every populated origin
(`lt Empty o` coincides with `o.hasValue`), and the boolean conversion is
`false` exactly on `Empty`. -/
theorem empty_origin_least (o : FileOrigin) :
    FileOrigin.lt .empty o = o.hasValue ∧
    (o.hasValue = false ↔ o = .empty) := by
  cases o <;>
    simp [FileOrigin.lt, FileOrigin.hasValue, FileOrigin.index]

/-- C7: `ReferenceStore.apply` is idempotent — applying the same mapping
twice yields the same lookup result for every location as applying it
once. -/
theorem referenceStore_apply_idempotent (s : ReferenceStore)
    (m : UpdatedFileReferences) (k : FileLocationId) :
    ((s.apply m.data).apply m.data).lookup k = (s.apply m.data).lookup k := by
  simp only [ReferenceStore.lookup_apply]
  cases h : lastB m.data k <;> simp [h]

/-- C8: when the in-flight record for a key resolves (here shown for both a
successful and a failed replay via the `res` parameter), the record is
removed from the in-flight map, so a re-`request` of the same key afterwards
(e.g. by a waiter during its own resolution) starts a brand-new cycle: a
fresh single-waiter record and a fresh replay sent to the collaborator. -/
theorem resolve_removes_record_first (c : Coordinator) (k : RefreshKey)
    (r : InflightRecord) (res : ReplayResult) (req : RequestDescriptor)
    (w : WaiterId)
    (h : c.findRecord k = some r)
    (hreq : replayRequest k.origin = some req) :
    (c.respond k res).1.findRecord k = none ∧
    ((c.respond k res).1.request k w).state.sent =
      (c.respond k res).1.sent ++ [req] ∧
    ((c.respond k res).1.request k w).state.findRecord k =
      some ⟨k, [w]⟩ := by
  have hinf : (c.respond k res).1.inflight =
      c.inflight.filter (fun q => !q.key.eqv k) := by
    cases res <;> simp [Coordinator.respond, h]
  have hnone : (c.respond k res).1.findRecord k = none := by
    show List.find? _ ((c.respond k res).1.inflight) = none
    rw [hinf]
    exact find?_filter_not_self _ _
  have hstate : ((c.respond k res).1.request k w).state =
      ⟨(c.respond k res).1.inflight ++ [⟨k, [w]⟩],
       (c.respond k res).1.store, (c.respond k res).1.sent ++ [req]⟩ := by
    simp [Coordinator.request, hreq, hnone]
  refine ⟨hnone, ?_, ?_⟩
  · rw [hstate]
  · rw [hstate]
    show List.find? _ _ = _
    rw [find?_append_of_none _ _ _ hnone]
    simp [List.find?_cons, RefreshKey.eqv_refl]

/-- C8 witness: on a coordinator with one in-flight record for `exKey`, a
failed replay removes the record, and an immediate re-`request` starts a
fresh cycle with a fresh replay. -/
theorem resolve_removes_record_first_witness :
    (exCoord1.respond exKey .error).1.findRecord exKey = none ∧
    ((exCoord1.respond exKey .error).1.request exKey 1).state.sent =
      (exCoord1.respond exKey .error).1.sent ++ [.getStickerSet 9 1] ∧
    ((exCoord1.respond exKey .error).1.request exKey 1).state.findRecord
      exKey = some ⟨exKey, [1]⟩ :=
  resolve_removes_record_first exCoord1 exKey ⟨exKey, [0]⟩ .error
    (.getStickerSet 9 1) 1 (by decide) (by decide)

/-- C9: extraction is a pure total function; a response all of whose
embedded entities yield no binding produces the empty mapping, and an
unknown entity, a document without a reference field, or a photo without a
reference field is skipped rather than causing an error. -/
theorem getFileReferences_defensive (es es2 : List ApiEntity) (i j : Nat)
    (h : ∀ e ∈ es, extractEntity e = none) :
    (GetFileReferences es).data = [] ∧
    GetFileReferences (ApiEntity.unknown :: es2) = GetFileReferences es2 ∧
    GetFileReferences (ApiEntity.document i none :: es2) =
      GetFileReferences es2 ∧
    GetFileReferences (ApiEntity.photo j none :: es2) =
      GetFileReferences es2 := by
  refine ⟨?_, ?_, ?_, ?_⟩
  · simp [GetFileReferences, List.filterMap_eq_nil_iff]
    exact h
  · simp [GetFileReferences, List.filterMap_cons, extractEntity]
  · simp [GetFileReferences, List.filterMap_cons, extractEntity]
  · simp [GetFileReferences, List.filterMap_cons, extractEntity]

/-- C9 witness: a concrete response containing only an unknown entity and a
document and a photo without reference fields extracts to the empty
mapping, and each such entity is skipped. -/
theorem getFileReferences_defensive_witness :
    (GetFileReferences [.unknown, .document 5 none, .photo 6 none]).data
      = [] ∧
    GetFileReferences (ApiEntity.unknown :: [.document 5 none]) =
      GetFileReferences [.document 5 none] ∧
    GetFileReferences (ApiEntity.document 5 none :: [.document 5 none]) =
      GetFileReferences [.document 5 none] ∧
    GetFileReferences (ApiEntity.photo 6 none :: [.document 5 none]) =
      GetFileReferences [.document 5 none] :=
  getFileReferences_defensive [.unknown, .document 5 none, .photo 6 none]
    [.document 5 none] 5 6 (by decide)

/-- C10: the ordering on `SavedGifs` origins is constantly `false`, so all
`SavedGifs` origins are order-equivalent (indeed equal) and collapse to a
single key in any map keyed by origin. -/
theorem savedGifs_order_collapse (a b : FileOriginSavedGifs) :
    FileOriginSavedGifs.lt a b = false ∧
    originEqv (.savedGifs a) (.savedGifs b) = true ∧ a = b := by
  cases a
  cases b
  exact ⟨rfl, by decide, rfl⟩

end Data
